import Mathlib

/-!
Verification of the TemporalCluster admission webhook
(`src/webhooks/temporalcluster_webhook.go`): the defaulting engine
(`Default`), the shared validation rules (`validateCluster`) and the
create/update entry points (`ValidateCreate`, `ValidateUpdate`).

The webhook file is the authority for the control flow embedded here.
Collaborators living outside that file (the Version model in
`pkg/version`, the API package's `TemporalCluster.Default()` and
`MTLSWithCertManagerEnabled()`, and the Go standard library's
`net.SplitHostPort` / `strconv.ParseInt`) are modelled from the
specification, each with a doc comment saying so.
-/

/-- Index of the last occurrence of a character in a character list,
mirroring Go's `last(hostport, ':')` helper used by `net.SplitHostPort`. -/
def lastIdxOf (cs : List Char) (c : Char) : Option Nat :=
  match cs.reverse.findIdx? fun x => x == c with
  | none => none
  | some j => some (cs.length - 1 - j)

/-- Embedding of Go's `net.SplitHostPort`: splits `hostport` at the last
colon, handling a bracketed host; `none` is any of Go's error returns
(missing port, too many colons, stray brackets). The port segment is not
validated beyond the splitting itself. -/
def splitHostPort (hostport : String) : Option (String × String) :=
  let cs := hostport.toList
  match lastIdxOf cs ':' with
  | none => none
  | some i =>
    let finish : List Char → Nat → Nat → Option (String × String) :=
      fun host j k =>
        if (cs.drop j).contains '[' then none
        else if (cs.drop k).contains ']' then none
        else some (String.mk host, String.mk (cs.drop (i + 1)))
    if cs.head? == some '[' then
      match cs.findIdx? fun x => x == ']' with
      | none => none
      | some e =>
        if e + 1 == cs.length then none
        else if e + 1 == i then finish ((cs.drop 1).take (e - 1)) 1 (e + 1)
        else none
    else
      let host := cs.take i
      if host.contains ':' then none
      else finish host 0 0

/-- Value of a non-empty all-decimal-digit character list, read in base
10; `none` otherwise. -/
def digitsToNat? (cs : List Char) : Option Nat :=
  if cs.isEmpty then none
  else if cs.all Char.isDigit then
    some (cs.foldl (fun n c => n * 10 + (c.toNat - Char.toNat '0')) 0)
  else none

/-- Embedding of Go's `strconv.ParseInt(s, 10, 32)`: an optional sign
followed by one or more decimal digits, with the value constrained to the
signed 32-bit range; `none` is any parse or range error. -/
def parseInt32 (s : String) : Option Int :=
  let p : Bool × List Char :=
    match s.toList with
    | '+' :: rest => (false, rest)
    | '-' :: rest => (true, rest)
    | cs => (false, cs)
  match digitsToNat? p.2 with
  | none => none
  | some n =>
    let v : Int := if p.1 then -(n : Int) else (n : Int)
    if -(2 ^ 31) ≤ v ∧ v ≤ 2 ^ 31 - 1 then some v else none

/-- Splits a character list on the dot separator, the list-level analogue
of splitting a version string on ".". -/
def splitDots (cs : List Char) : List (List Char) :=
  match cs with
  | [] => [[]]
  | c :: rest =>
    let r := splitDots rest
    if c == '.' then [] :: r
    else
      match r with
      | [] => [[c]]
      | h :: t => (c :: h) :: t

/-- Modelled from the spec: parsing a version string into its
(major, minor, patch) triple, as the Version model of `pkg/version`
(outside src) does; `none` when the string is not of that shape. -/
def parseVersion (s : String) : Option (Nat × Nat × Nat) :=
  match splitDots s.toList with
  | [a, b, c] =>
    match digitsToNat? a, digitsToNat? b, digitsToNat? c with
    | some x, some y, some z => some (x, y, z)
    | _, _, _ => none
  | _ => none

/-- Lexicographic less-or-equal on (major, minor, patch) triples, the
total order the spec requires of Version comparisons. -/
def triLE (a b : Nat × Nat × Nat) : Bool :=
  Nat.blt a.1 b.1 ||
    (a.1 == b.1 &&
      (Nat.blt a.2.1 b.2.1 || (a.2.1 == b.2.1 && Nat.ble a.2.2 b.2.2)))

/-- The Prometheus sub-config of the metrics spec: the deprecated combined
`listenAddress` string and the split `listenPort` integer. -/
structure PrometheusSpec where
  listenAddress : String
  listenPort : Option Int
deriving DecidableEq, Repr

/-- The metrics part of the cluster spec. -/
structure MetricsSpec where
  enabled : Bool
  prometheus : Option PrometheusSpec
deriving DecidableEq, Repr

/-- The elasticsearch part of a datastore spec, carrying its version tag. -/
structure ElasticsearchSpec where
  version : String
deriving DecidableEq, Repr

/-- A datastore spec as referenced by the advanced visibility store. -/
structure DatastoreSpec where
  elasticsearch : Option ElasticsearchSpec
deriving DecidableEq, Repr

/-- The persistence part of the cluster spec. -/
structure PersistenceSpec where
  advancedVisibilityStore : Option DatastoreSpec
deriving DecidableEq, Repr

/-- The mTLS part of the cluster spec, declaring a provider. -/
structure MTLSSpec where
  provider : String
deriving DecidableEq, Repr

/-- The TemporalCluster spec, projected onto the fields the webhook reads
or writes. The version is kept as its wire string. -/
structure ClusterSpec where
  version : String
  metrics : Option MetricsSpec
  mTLS : Option MTLSSpec
  persistence : PersistenceSpec
deriving DecidableEq, Repr

/-- Modelled from the spec: `MetricsSpec.MetricsEnabled()` (API package,
outside src): metrics are enabled when the metrics sub-config is present
with its enabled flag set. -/
def metricsEnabled : Option MetricsSpec → Bool
  | some m => m.enabled
  | none => false

/-- Modelled from the spec: `TemporalCluster.MTLSWithCertManagerEnabled()`
(API package, outside src): true when mTLS is requested with the provider
requiring the certificate-issuer (cert-manager) integration. -/
def mTLSWithCertManagerEnabled (c : ClusterSpec) : Bool :=
  match c.mTLS with
  | some m => m.provider == "cert-manager"
  | none => false

/-- Modelled from the spec: `v1beta1.TemporalCluster.Default()` (API
package, outside src) performs bulk default-filling of omitted optional
fields outside the webhook's hard logic; on the projection of fields
tracked here it changes nothing. -/
def clusterDefault (c : ClusterSpec) : ClusterSpec := c

/-- The spec after the migration writes of webhook lines 82-83: the
Prometheus sub-config's `listenAddress` emptied and its `listenPort` set
to the parsed port. -/
def migrateSpec (c : ClusterSpec) (m : MetricsSpec) (p : PrometheusSpec) (n : Int) : ClusterSpec :=
  { c with metrics := some { m with prometheus := some { p with listenAddress := "", listenPort := some n } } }

/-- Embedding of the webhook's `Default` (lines 63-92): when metrics are
enabled and a Prometheus sub-config has a non-empty deprecated
`listenAddress` and an unset `listenPort`, split the address and migrate
the port; then apply the API package's bulk defaults. The result pairs
the (possibly mutated) spec with an optional error message; Go mutates in
place and returns before mutating on either error, so both error branches
return the spec unchanged. -/
def defaultCluster (c : ClusterSpec) : ClusterSpec × Option String :=
  if metricsEnabled c.metrics then
    match c.metrics with
    | some m =>
      match m.prometheus with
      | some p =>
        if p.listenAddress != "" && p.listenPort.isNone then
          match splitHostPort p.listenAddress with
          | none => (c, some "can't parse prometheus spec.metrics.prometheus.listenAddress")
          | some hp =>
            match parseInt32 hp.2 with
            | none => (c, some "can't parse prometheus spec.metrics.prometheus.listenAddress port")
            | some n => (clusterDefault (migrateSpec c m p n), none)
        else (clusterDefault c, none)
      | none => (clusterDefault c, none)
    | none => (clusterDefault c, none)
  else (clusterDefault c, none)

/-- Severity of a field error, as in the spec's FieldError data model. -/
inductive ErrorKind
  | invalid
  | forbidden
deriving DecidableEq, Repr

/-- A structured validation failure: field path, severity and message. -/
structure FieldError where
  path : List String
  kind : ErrorKind
  detail : String
deriving DecidableEq, Repr

/-- The capability snapshot read by validation: which optional platform
integrations are available. -/
structure AvailableAPIs where
  certManager : Bool
deriving DecidableEq, Repr

/-- Modelled from the spec: the process-wide configuration of the Version
model (`pkg/version`, outside src): the supported versions range together
with its printable rendering used in the rejection message. -/
structure VersionConfig where
  supportedLo : Nat × Nat × Nat
  supportedHi : Nat × Nat × Nat
  supportedRangeStr : String
deriving DecidableEq, Repr

/-- Modelled from the spec: `Version.Validate()` (`pkg/version`, outside
src): succeeds exactly when the version parses and lies within the
configured supported range. -/
def versionValidate (cfg : VersionConfig) (v : String) : Bool :=
  match parseVersion v with
  | some t => triLE cfg.supportedLo t && triLE t cfg.supportedHi
  | none => false

/-- Modelled from the spec: `Version.GreaterOrEqual(milestone)`
(`pkg/version`, outside src): comparison under the total order on
(major, minor, patch). -/
def versionGreaterOrEqual (v : String) (m : Nat × Nat × Nat) : Bool :=
  match parseVersion v with
  | some t => triLE m t
  | none => false

/-- The `version.V1_18_0` milestone: the version at which ElasticSearch v6
support stops. -/
def V1_18_0 : Nat × Nat × Nat := (1, 18, 0)

/-- Modelled from the spec: `Version.UpgradeConstraint()` (`pkg/version`,
outside src): fails when the version cannot be parsed into
(major, minor, patch); otherwise yields the triple the constraint is
built from. -/
def upgradeConstraint (v : String) : Except String (Nat × Nat × Nat) :=
  match parseVersion v with
  | some t => Except.ok t
  | none => Except.error "malformed version"

/-- Modelled from the spec: the upgrade constraint's `Check(candidate)`:
true iff `candidate.major == old.major && candidate.minor == old.minor + 1`,
the patch being unconstrained. -/
def upgradeConstraintCheck (old : Nat × Nat × Nat) (candidate : String) : Bool :=
  match parseVersion candidate with
  | some c => c.1 == old.1 && c.2.1 == old.2.1 + 1
  | none => false

/-- The error appended by the mTLS capability gate (webhook lines 99-107):
`field.Invalid` at `spec.mTLS.provider`. -/
def mTLSProviderErr : FieldError :=
  ⟨["spec", "mTLS", "provider"], ErrorKind.invalid,
    "Can't use cert-manager as mTLS provider as it's not available in the cluster"⟩

/-- The error appended by the version support gate (webhook lines 110-118):
`field.Forbidden` at `spec.version` describing the supported range. -/
def unsupportedVersionErr (cfg : VersionConfig) : FieldError :=
  ⟨["spec", "version"], ErrorKind.forbidden,
    "Unsupported temporal version (supported: " ++ cfg.supportedRangeStr ++ ")"⟩

/-- The error appended by the legacy search-backend gate (webhook lines
120-132): `field.Forbidden` at the nested elasticsearch version path. -/
def elasticsearchV6Err : FieldError :=
  ⟨["spec", "persistence", "advancedVisibilityStore", "elasticsearch", "version"],
    ErrorKind.forbidden,
    "temporal cluster version >= 1.18.0 doesn't support ElasticSearch v6"⟩

/-- The error appended by the sequential upgrade gate (webhook lines
172-179): `field.Forbidden` at `spec.version`. -/
def upgradeForbiddenErr : FieldError :=
  ⟨["spec", "version"], ErrorKind.forbidden,
    "Unauthorized version upgrade. Only sequential version upgrades are allowed (from v1.n.x to v1.n+1.x)"⟩

/-- Whether the spec configures an advanced visibility store whose
elasticsearch version tag is the legacy "v6" (webhook lines 122-124). -/
def hasElasticsearchV6 (c : ClusterSpec) : Bool :=
  match c.persistence.advancedVisibilityStore with
  | some ds =>
    match ds.elasticsearch with
    | some es => es.version == "v6"
    | none => false
  | none => false

/-- Embedding of the webhook's `validateCluster` (lines 94-135): the
shared rule set, each rule independently appending its field error. -/
def validateCluster (apis : AvailableAPIs) (cfg : VersionConfig) (c : ClusterSpec) :
    List FieldError :=
  let errs : List FieldError := []
  let errs := if mTLSWithCertManagerEnabled c && !apis.certManager then
      errs ++ [mTLSProviderErr] else errs
  let errs := if !versionValidate cfg c.version then
      errs ++ [unsupportedVersionErr cfg] else errs
  let errs := if versionGreaterOrEqual c.version V1_18_0 && hasElasticsearchV6 c then
      errs ++ [elasticsearchV6Err] else errs
  errs

/-- Embedding of `aggregateClusterErrors` (lines 50-60): an empty list is
no rejection; a non-empty one becomes a structured rejection carrying the
list. -/
def aggregateClusterErrors (errs : List FieldError) : Option (List FieldError) :=
  if errs.isEmpty then none else some errs

/-- Embedding of `ValidateCreate` (lines 138-147): run the shared rules
and aggregate. -/
def validateCreate (apis : AvailableAPIs) (cfg : VersionConfig) (c : ClusterSpec) :
    Option (List FieldError) :=
  aggregateClusterErrors (validateCluster apis cfg c)

/-- The error list built by `ValidateUpdate` (lines 151-182) before
aggregation: the shared rules on the new spec, then the sequential
upgrade gate; a hard error when the old version's upgrade constraint
cannot be computed. -/
def validateUpdateErrs (apis : AvailableAPIs) (cfg : VersionConfig)
    (oldC newC : ClusterSpec) : Except String (List FieldError) :=
  let errs := validateCluster apis cfg newC
  match upgradeConstraint oldC.version with
  | Except.error e => Except.error ("can't compute version upgrade constraint: " ++ e)
  | Except.ok old =>
    Except.ok (if upgradeConstraintCheck old newC.version then errs
      else errs ++ [upgradeForbiddenErr])

/-- Embedding of `ValidateUpdate` (lines 151-182): either a propagated
hard error, or the aggregation of the built error list. -/
def validateUpdate (apis : AvailableAPIs) (cfg : VersionConfig)
    (oldC newC : ClusterSpec) : Except String (Option (List FieldError)) :=
  (validateUpdateErrs apis cfg oldC newC).map aggregateClusterErrors

/-- Embedding of `ValidateDelete` (lines 185-188): deletion is always
admitted. -/
def validateDelete (_ : ClusterSpec) : Option (List FieldError) := none

/-- Whether both the deprecated combined `listenAddress` and the split
`listenPort` are set at once on the Prometheus sub-config. -/
def combinedAndSplitBothSet (c : ClusterSpec) : Bool :=
  match c.metrics with
  | some m =>
    match m.prometheus with
    | some p => p.listenAddress != "" && p.listenPort.isSome
    | none => false
  | none => false

/-- Membership in a conditional singleton list. -/
theorem mem_ite_singleton {α : Type} {P : Prop} [Decidable P] (a b : α) :
    (a ∈ if P then [b] else ([] : List α)) ↔ P ∧ a = b := by
  split_ifs with h <;> simp [h]

/-- The mTLS gate's error differs from the version gate's error: the field
paths differ. -/
theorem mTLSProviderErr_ne_unsupported (cfg : VersionConfig) :
    mTLSProviderErr ≠ unsupportedVersionErr cfg := by
  intro h
  have hp := congrArg FieldError.path h
  simp only [mTLSProviderErr, unsupportedVersionErr] at hp
  exact absurd hp (by decide)

/-- The search-backend gate's error differs from the version gate's error:
the field paths differ. -/
theorem elasticsearchV6Err_ne_unsupported (cfg : VersionConfig) :
    elasticsearchV6Err ≠ unsupportedVersionErr cfg := by
  intro h
  have hp := congrArg FieldError.path h
  simp only [elasticsearchV6Err, unsupportedVersionErr] at hp
  exact absurd hp (by decide)

/-- The shared rule set as the concatenation of each rule's contribution,
in evaluation order. -/
theorem validateCluster_eq (apis : AvailableAPIs) (cfg : VersionConfig) (c : ClusterSpec) :
    validateCluster apis cfg c =
      (if mTLSWithCertManagerEnabled c && !apis.certManager then [mTLSProviderErr] else []) ++
      (if !versionValidate cfg c.version then [unsupportedVersionErr cfg] else []) ++
      (if versionGreaterOrEqual c.version V1_18_0 && hasElasticsearchV6 c then
        [elasticsearchV6Err] else []) := by
  simp only [validateCluster]
  split_ifs <;> simp

/-- Case analysis on a successful run of the defaulting engine: either
nothing was migrated and the spec passed through unchanged, or the
deprecated address was split and the port migrated. -/
theorem defaultCluster_ok_elim (c c' : ClusterSpec) (h : defaultCluster c = (c', none)) :
    c' = c ∨
    ∃ m p hp n, c.metrics = some m ∧ m.enabled = true ∧ m.prometheus = some p ∧
      p.listenAddress ≠ "" ∧ p.listenPort = none ∧
      splitHostPort p.listenAddress = some hp ∧ parseInt32 hp.2 = some n ∧
      c' = migrateSpec c m p n := by
  obtain ⟨v, metrics, mtls, pers⟩ := c
  cases metrics with
  | none =>
    left
    simp [defaultCluster, metricsEnabled, clusterDefault] at h
    exact h.symm
  | some m =>
    obtain ⟨en, prom⟩ := m
    cases en with
    | false =>
      left
      simp [defaultCluster, metricsEnabled, clusterDefault] at h
      exact h.symm
    | true =>
      cases prom with
      | none =>
        left
        simp [defaultCluster, metricsEnabled, clusterDefault] at h
        exact h.symm
      | some p =>
        obtain ⟨addr, lport⟩ := p
        cases lport with
        | some k =>
          left
          simp [defaultCluster, metricsEnabled, clusterDefault] at h
          exact h.symm
        | none =>
          by_cases haddr : addr = ""
          · left
            subst haddr
            simp [defaultCluster, metricsEnabled, clusterDefault] at h
            exact h.symm
          · have hbne : (addr != "") = true := by simp [haddr]
            cases hsp : splitHostPort addr with
            | none =>
              simp [defaultCluster, metricsEnabled, clusterDefault, hbne, hsp] at h
            | some hp2 =>
              cases hpi : parseInt32 hp2.2 with
              | none =>
                simp [defaultCluster, metricsEnabled, clusterDefault, hbne, hsp, hpi] at h
              | some n =>
                right
                simp [defaultCluster, metricsEnabled, clusterDefault, hbne, hsp, hpi] at h
                exact ⟨⟨true, some ⟨addr, none⟩⟩, ⟨addr, none⟩, hp2, n, rfl, rfl, rfl,
                  haddr, rfl, hsp, hpi, h.symm⟩

/-- Sample version-range configuration: supported range 1.17.0 - 1.23.99. -/
def cfgW : VersionConfig := ⟨(1, 17, 0), (1, 23, 99), "v1.17 to v1.23"⟩

/-- Sample persistence spec with no advanced visibility store. -/
def persNone : PersistenceSpec := ⟨none⟩

/-- Sample spec carrying a migratable deprecated listen address. -/
def specAddr : ClusterSpec := ⟨"1.18.0", some ⟨true, some ⟨"localhost:9090", none⟩⟩, none, persNone⟩

/-- Sample spec whose deprecated listen address is not a host:port pair. -/
def specBadAddr : ClusterSpec := ⟨"1.18.0", some ⟨true, some ⟨"not-an-address", none⟩⟩, none, persNone⟩

/-- Sample spec with both the combined and the split Prometheus fields set. -/
def specBoth : ClusterSpec := ⟨"1.18.0", some ⟨true, some ⟨"host:9090", some 9091⟩⟩, none, persNone⟩

/-- Sample spec requesting the cert-manager mTLS provider. -/
def specMTLS : ClusterSpec := ⟨"1.18.0", none, some ⟨"cert-manager"⟩, persNone⟩

/-- Sample spec configuring an ElasticSearch v6 advanced visibility store
at version 1.18.0. -/
def specES : ClusterSpec := ⟨"1.18.0", none, none, ⟨some ⟨some ⟨"v6"⟩⟩⟩⟩

/-- Sample spec whose stored version string is unparsable. -/
def specOldGarbage : ClusterSpec := ⟨"garbage", none, none, persNone⟩

/-- Sample spec at version 1.17.5. -/
def specOld175 : ClusterSpec := ⟨"1.17.5", none, none, persNone⟩

/-- Sample spec at version 1.19.0. -/
def specNew190 : ClusterSpec := ⟨"1.19.0", none, none, persNone⟩

/-- Sample spec at the out-of-range version 1.30.0. -/
def specV130 : ClusterSpec := ⟨"1.30.0", none, none, persNone⟩

/-- Sample spec whose deprecated address carries a port above 65535. -/
def specPortHigh : ClusterSpec := ⟨"1.18.0", some ⟨true, some ⟨"h:70000", none⟩⟩, none, persNone⟩

/-- Sample spec whose deprecated address carries a negative port. -/
def specPortNeg : ClusterSpec := ⟨"1.18.0", some ⟨true, some ⟨"h:-5", none⟩⟩, none, persNone⟩

/-- C3 counterexample: a spec with both the combined `listenAddress` and
the split `listenPort` set passes `Default` unchanged and successfully,
so the two fields are not mutually exclusive after defaulting. -/
theorem default_exclusivity_counterexample :
    defaultCluster specBoth = (specBoth, none) ∧ combinedAndSplitBothSet specBoth = true := by
  decide

/-- C3 (amended): for every spec on which `Default` succeeds and which did
not already carry both the combined `listenAddress` and the split
`listenPort`, the two fields are mutually exclusive afterwards. -/
theorem default_preserves_exclusivity (c c' : ClusterSpec)
    (h : defaultCluster c = (c', none)) (hin : combinedAndSplitBothSet c = false) :
    combinedAndSplitBothSet c' = false := by
  rcases defaultCluster_ok_elim c c' h with rfl | ⟨m, p, hp2, n, hm, hen, hprom, haddr, hport, hsp, hpi, rfl⟩
  · exact hin
  · simp [combinedAndSplitBothSet, migrateSpec]

/-- C3 witness: the amended statement at the migratable sample spec. -/
theorem default_preserves_exclusivity_witness :
    combinedAndSplitBothSet ⟨"1.18.0", some ⟨true, some ⟨"", some 9090⟩⟩, none, persNone⟩ = false :=
  default_preserves_exclusivity specAddr _ (by decide) (by decide)

/-- C5: for every spec with metrics enabled, a Prometheus sub-config
present, a non-empty deprecated `listenAddress` that splits into a
host:port pair whose port parses as a signed 32-bit base-10 integer, and
an unset `listenPort`, `Default` succeeds, empties `listenAddress` and
stores the parsed port in `listenPort`. -/
theorem default_migrates_legacy_address (c : ClusterSpec) (m : MetricsSpec) (p : PrometheusSpec)
    (host port : String) (n : Int)
    (hm : c.metrics = some m) (hen : m.enabled = true) (hprom : m.prometheus = some p)
    (haddr : p.listenAddress ≠ "") (hport : p.listenPort = none)
    (hsp : splitHostPort p.listenAddress = some (host, port))
    (hpi : parseInt32 port = some n) :
    defaultCluster c = (migrateSpec c m p n, none) := by
  obtain ⟨v, metrics, mtls, pers⟩ := c
  subst hm
  obtain ⟨en, prom⟩ := m
  subst hen
  subst hprom
  obtain ⟨addr, lport⟩ := p
  subst hport
  have hbne : (addr != "") = true := by simpa using haddr
  simp [defaultCluster, metricsEnabled, clusterDefault, hbne, hsp, hpi]

/-- C5 witness: migrating the sample address localhost:9090 yields an
empty address and port 9090. -/
theorem default_migrates_legacy_address_witness :
    defaultCluster specAddr =
      (⟨"1.18.0", some ⟨true, some ⟨"", some 9090⟩⟩, none, persNone⟩, none) :=
  default_migrates_legacy_address specAddr ⟨true, some ⟨"localhost:9090", none⟩⟩
    ⟨"localhost:9090", none⟩ "localhost" "9090" 9090 rfl rfl rfl (by decide) rfl
    (by decide) (by decide)

/-- C6: for every spec subject to the legacy-address migration whose
address does not split into host:port, or whose port segment does not
parse as a signed 32-bit base-10 integer, `Default` fails with a
malformed-address error and returns the spec unchanged. -/
theorem default_rejects_malformed_address (c : ClusterSpec) (m : MetricsSpec) (p : PrometheusSpec)
    (hm : c.metrics = some m) (hen : m.enabled = true) (hprom : m.prometheus = some p)
    (haddr : p.listenAddress ≠ "") (hport : p.listenPort = none)
    (hbad : splitHostPort p.listenAddress = none ∨
      ∃ hp2, splitHostPort p.listenAddress = some hp2 ∧ parseInt32 hp2.2 = none) :
    ∃ msg, defaultCluster c = (c, some msg) := by
  obtain ⟨v, metrics, mtls, pers⟩ := c
  subst hm
  obtain ⟨en, prom⟩ := m
  subst hen
  subst hprom
  obtain ⟨addr, lport⟩ := p
  subst hport
  have hbne : (addr != "") = true := by simpa using haddr
  rcases hbad with hsp | ⟨hp2, hsp, hpi⟩
  · exact ⟨"can't parse prometheus spec.metrics.prometheus.listenAddress",
      by simp [defaultCluster, metricsEnabled, clusterDefault, hbne, hsp]⟩
  · exact ⟨"can't parse prometheus spec.metrics.prometheus.listenAddress port",
      by simp [defaultCluster, metricsEnabled, clusterDefault, hbne, hsp, hpi]⟩

/-- C6 witness: defaulting fails on the sample unsplittable address and
leaves the sample spec unchanged. -/
theorem default_rejects_malformed_address_witness :
    ∃ msg, defaultCluster specBadAddr = (specBadAddr, some msg) :=
  default_rejects_malformed_address specBadAddr ⟨true, some ⟨"not-an-address", none⟩⟩
    ⟨"not-an-address", none⟩ rfl rfl rfl (by decide) rfl (Or.inl (by decide))

/-- C7: the defaulting engine is idempotent: a second run on the result of
any successful run succeeds and changes nothing. -/
theorem default_idempotent (c c' : ClusterSpec) (h : defaultCluster c = (c', none)) :
    defaultCluster c' = (c', none) := by
  rcases defaultCluster_ok_elim c c' h with rfl | ⟨m, p, hp2, n, hm, hen, hprom, haddr, hport, hsp, hpi, rfl⟩
  · exact h
  · simp [defaultCluster, migrateSpec, metricsEnabled, clusterDefault, hen]

/-- C7 witness: idempotence at the migratable sample spec. -/
theorem default_idempotent_witness :
    defaultCluster ⟨"1.18.0", some ⟨true, some ⟨"", some 9090⟩⟩, none, persNone⟩ =
      (⟨"1.18.0", some ⟨true, some ⟨"", some 9090⟩⟩, none, persNone⟩, none) :=
  default_idempotent specAddr _ (by decide)

/-- C10: the migration stores any port that parses as a signed 32-bit
integer verbatim, with no check against the TCP port range: 70000 and -5
are both accepted and stored. -/
theorem default_port_range_unchecked :
    (defaultCluster specPortHigh =
      (⟨"1.18.0", some ⟨true, some ⟨"", some 70000⟩⟩, none, persNone⟩, none) ∧
      ¬((70000 : Int) ≤ 65535)) ∧
    (defaultCluster specPortNeg =
      (⟨"1.18.0", some ⟨true, some ⟨"", some (-5)⟩⟩, none, persNone⟩, none) ∧
      ¬((0 : Int) ≤ -5)) := by
  decide

/-- C2 counterexample: with the cert-manager mTLS provider requested and
cert-manager unavailable, the error appended at spec.mTLS.provider is an
Invalid error, not a Forbidden one, so no Forbidden entry appears there. -/
theorem mtls_gate_forbidden_counterexample :
    mTLSWithCertManagerEnabled specMTLS = true ∧
    validateCluster ⟨false⟩ cfgW specMTLS = [mTLSProviderErr] ∧
    mTLSProviderErr.kind = ErrorKind.invalid ∧
    ErrorKind.invalid ≠ ErrorKind.forbidden := by
  decide

/-- C2 (amended): for every spec requesting mTLS with the cert-manager
provider, validation appends its Invalid error at spec.mTLS.provider iff
the capability snapshot reports cert-manager unavailable; when available,
this rule appends nothing. -/
theorem mtls_gate_invalid_iff (apis : AvailableAPIs) (cfg : VersionConfig) (c : ClusterSpec)
    (h : mTLSWithCertManagerEnabled c = true) :
    (mTLSProviderErr ∈ validateCluster apis cfg c ↔ apis.certManager = false) := by
  rw [validateCluster_eq]
  simp only [List.mem_append, mem_ite_singleton]
  constructor
  · rintro ((⟨hc, _⟩ | ⟨_, habs⟩) | ⟨_, habs⟩)
    · simp only [Bool.and_eq_true, Bool.not_eq_true'] at hc
      exact hc.2
    · exact absurd habs (mTLSProviderErr_ne_unsupported cfg)
    · exact absurd habs (by decide)
  · intro hfalse
    left; left
    exact ⟨by simp [h, hfalse], trivial⟩

/-- C2 witness: the amended statement at the sample cert-manager spec with
cert-manager unavailable. -/
theorem mtls_gate_invalid_iff_witness :
    (mTLSProviderErr ∈ validateCluster ⟨false⟩ cfgW specMTLS ↔
      (⟨false⟩ : AvailableAPIs).certManager = false) :=
  mtls_gate_invalid_iff ⟨false⟩ cfgW specMTLS (by decide)

/-- C4: a spec whose version fails the supported-range validation yields a
rejection from ValidateCreate: a non-empty error list containing the
Forbidden entry at spec.version describing the supported range. -/
theorem create_rejects_unsupported_version (apis : AvailableAPIs) (cfg : VersionConfig)
    (c : ClusterSpec) (h : versionValidate cfg c.version = false) :
    ∃ errs, validateCreate apis cfg c = some errs ∧ errs ≠ [] ∧
      unsupportedVersionErr cfg ∈ errs := by
  have hmem : unsupportedVersionErr cfg ∈ validateCluster apis cfg c := by
    rw [validateCluster_eq]
    simp only [List.mem_append, mem_ite_singleton]
    left; right
    exact ⟨by simp [h], trivial⟩
  have hne : validateCluster apis cfg c ≠ [] := List.ne_nil_of_mem hmem
  refine ⟨validateCluster apis cfg c, ?_, hne, hmem⟩
  simp [validateCreate, aggregateClusterErrors, hne]

/-- C4 witness: the out-of-range version 1.30.0 is rejected under the
sample range configuration. -/
theorem create_rejects_unsupported_version_witness :
    ∃ errs, validateCreate ⟨true⟩ cfgW specV130 = some errs ∧ errs ≠ [] ∧
      unsupportedVersionErr cfgW ∈ errs :=
  create_rejects_unsupported_version ⟨true⟩ cfgW specV130 (by decide)

/-- C8: with an ElasticSearch v6 advanced visibility store configured, the
legacy search-backend gate appends its Forbidden error at the nested
elasticsearch version path exactly when the parsed version reaches the
1.18.0 milestone; below the milestone it appends nothing. -/
theorem es_v6_gate (apis : AvailableAPIs) (cfg : VersionConfig) (c : ClusterSpec)
    (t : Nat × Nat × Nat) (hv : parseVersion c.version = some t)
    (hes : hasElasticsearchV6 c = true) :
    (triLE V1_18_0 t = true → elasticsearchV6Err ∈ validateCluster apis cfg c) ∧
    (triLE V1_18_0 t = false → elasticsearchV6Err ∉ validateCluster apis cfg c) := by
  have hge : versionGreaterOrEqual c.version V1_18_0 = triLE V1_18_0 t := by
    simp [versionGreaterOrEqual, hv]
  constructor
  · intro hle
    rw [validateCluster_eq]
    simp only [List.mem_append, mem_ite_singleton]
    right
    exact ⟨by simp [hge, hle, hes], trivial⟩
  · intro hlt
    rw [validateCluster_eq]
    simp only [List.mem_append, mem_ite_singleton]
    rintro ((⟨_, habs⟩ | ⟨_, habs⟩) | ⟨hcond, _⟩)
    · exact absurd habs (by decide)
    · exact absurd habs (elasticsearchV6Err_ne_unsupported cfg)
    · rw [hge, hlt] at hcond
      simp at hcond

/-- C8 witness: version 1.18.0 with an ElasticSearch v6 store is rejected
at the nested elasticsearch version path. -/
theorem es_v6_gate_witness :
    elasticsearchV6Err ∈ validateCluster ⟨true⟩ cfgW specES :=
  (es_v6_gate ⟨true⟩ cfgW specES (1, 18, 0) (by decide) (by decide)).1 (by decide)

/-- C9: when the stored old spec's version cannot be parsed, ValidateUpdate
propagates a hard error rather than a field-error rejection, whatever the
new spec contains. -/
theorem update_unparsable_old_version_hard_error (apis : AvailableAPIs) (cfg : VersionConfig)
    (oldC newC : ClusterSpec) (h : parseVersion oldC.version = none) :
    validateUpdate apis cfg oldC newC =
      Except.error ("can't compute version upgrade constraint: " ++ "malformed version") := by
  simp [validateUpdate, validateUpdateErrs, upgradeConstraint, h, Except.map]

/-- C9 witness: the hard error at an unparsable stored version, with a new
spec the shared rules accept. -/
theorem update_unparsable_old_version_hard_error_witness :
    validateUpdate ⟨true⟩ cfgW specOldGarbage specAddr =
      Except.error ("can't compute version upgrade constraint: " ++ "malformed version") :=
  update_unparsable_old_version_hard_error ⟨true⟩ cfgW specOldGarbage specAddr (by decide)

/-- C1: for an update whose old version parses into (major, minor, patch),
the sequential upgrade gate appends its Forbidden error at spec.version
exactly when the new version fails the predicate candidate.major ==
old.major and candidate.minor == old.minor + 1 (patch unconstrained); the
shared rules' errors are produced either way. -/
theorem update_sequential_upgrade_gate (apis : AvailableAPIs) (cfg : VersionConfig)
    (oldC newC : ClusterSpec) (old cand : Nat × Nat × Nat)
    (hold : parseVersion oldC.version = some old)
    (hcand : parseVersion newC.version = some cand) :
    validateUpdateErrs apis cfg oldC newC =
      Except.ok (validateCluster apis cfg newC ++
        (if cand.1 = old.1 ∧ cand.2.1 = old.2.1 + 1 then [] else [upgradeForbiddenErr])) := by
  simp only [validateUpdateErrs, upgradeConstraint, upgradeConstraintCheck, hold, hcand]
  by_cases hc : cand.1 = old.1 ∧ cand.2.1 = old.2.1 + 1
  · simp [hc.1, hc.2]
  · rw [if_neg hc]
    have hb : (cand.1 == old.1 && cand.2.1 == old.2.1 + 1) = false := by
      rw [Bool.eq_false_iff]
      intro hcontra
      exact hc (by simpa [Bool.and_eq_true] using hcontra)
    simp [hb]

/-- C1 witness: updating from 1.17.5 to 1.19.0 skips a minor version and
the gate appends its Forbidden error. -/
theorem update_sequential_upgrade_gate_witness :
    validateUpdateErrs ⟨true⟩ cfgW specOld175 specNew190 =
      Except.ok (validateCluster ⟨true⟩ cfgW specNew190 ++
        (if ((1, 19, 0) : Nat × Nat × Nat).1 = ((1, 17, 5) : Nat × Nat × Nat).1 ∧
            ((1, 19, 0) : Nat × Nat × Nat).2.1 = ((1, 17, 5) : Nat × Nat × Nat).2.1 + 1
          then [] else [upgradeForbiddenErr])) :=
  update_sequential_upgrade_gate ⟨true⟩ cfgW specOld175 specNew190 (1, 17, 5) (1, 19, 0)
    (by decide) (by decide)
